import Mathlib

set_option autoImplicit false
set_option linter.unusedVariables false

namespace FinancialAdvisor

/-- Python runtime values that appear in the dictionaries of this repository:
`None`, booleans, integers and strings. Provider responses and shared-state
values are drawn from this type. -/
inductive PyVal where
  | none_ : PyVal
  | bool : Bool → PyVal
  | int : Int → PyVal
  | str : String → PyVal
deriving DecidableEq, Repr

/-- A Python `dict` with string keys, modelled as an ordered association list
(first binding of a key is its value, as in Python a key occurs once). -/
def PyDict : Type := List (String × PyVal)

instance : DecidableEq PyDict := by unfold PyDict; infer_instance

/-- `d.get(k)` style lookup: the value bound to `k`, if present. -/
def dictLookup (d : PyDict) (k : String) : Option PyVal :=
  (d.find? (fun p => p.1 == k)).map (fun p => p.2)

/-- Python `d.get(k, default)`. -/
def dictGetD (d : PyDict) (k : String) (v : PyVal) : PyVal :=
  (dictLookup d k).getD v

/-- Python `d[k] = v`: replace the binding of `k` in place if present
(keeping insertion order), otherwise append a new binding. -/
def dictSet : PyDict → String → PyVal → PyDict
  | [], k, v => [(k, v)]
  | (k', v') :: rest, k, v =>
    if k' == k then (k, v) :: rest
    else (k', v') :: dictSet rest k v

/-- How the Python f-string renders a value: `str(v)`. `None` renders as the
literal text `None`, booleans as `True`/`False`, strings as themselves. -/
def pyStr : PyVal → String
  | .none_ => "None"
  | .bool b => if b then "True" else "False"
  | .int n => toString n
  | .str s => s

/-- UTF-8 encoding of one Unicode code point, as byte values. -/
def utf8Bytes (c : Nat) : List Nat :=
  if c < 0x80 then [c]
  else if c < 0x800 then [0xC0 + c / 0x40, 0x80 + c % 0x40]
  else if c < 0x10000 then
    [0xE0 + c / 0x1000, 0x80 + (c / 0x40) % 0x40, 0x80 + c % 0x40]
  else
    [0xF0 + c / 0x40000, 0x80 + (c / 0x1000) % 0x40,
     0x80 + (c / 0x40) % 0x40, 0x80 + c % 0x40]

/-- Python `s.encode("utf-8")`: the UTF-8 bytes of a string. -/
def encodeUTF8 (s : String) : List Nat :=
  (s.data.map (fun ch => utf8Bytes ch.toNat)).flatten

/-- The fixed segments of the f-string template in `save_advice_report`
(`src/financial_advisor/agent.py`), in order of appearance. -/
def seg1 : String := "\n    # Excetutive Summary and Advice:\n    "

def seg2 : String := "\n\n    ## Data Analyst Report:\n    "

def seg3 : String := "\n\n    ## Financial Analyst Report:\n    "

def seg4 : String := "\n\n    ## News Analyst Report:\n    "

def seg5 : String := "\n\n    "

/-- The f-string of `save_advice_report`: fixed segments interleaved with the
interpolated summary and the three analyst results. -/
def buildReport (summary : String) (d f n : PyVal) : String :=
  seg1 ++ summary ++ seg2 ++ pyStr d ++ seg3 ++ pyStr f ++ seg4 ++ pyStr n ++ seg5

/-- The report string `save_advice_report` assembles from the shared store and
the summary: the three analyst results are read with `state.get(key)`, which
yields `None` when the key is absent. -/
def reportText (state : PyDict) (summary : String) : String :=
  buildReport summary
    (dictGetD state "data_analyst_result" .none_)
    (dictGetD state "financial_analyst_result" .none_)
    (dictGetD state "news_analyst_result" .none_)

/-- An artifact handed to `tool_context.save_artifact`: a named blob with a
media type and a byte payload (`types.Part` / `types.Blob`). -/
structure Artifact where
  filename : String
  mime_type : String
  data : List Nat
deriving DecidableEq, Repr

/-- The observable outcome of one call to `save_advice_report`: the shared
store after the call, the artifacts successfully persisted, and either the
returned mapping or the exception propagated from the external persistence
call. -/
structure Outcome where
  state : PyDict
  artifacts : List Artifact
  result : Except Unit PyDict

/-- `save_advice_report` from `src/financial_advisor/agent.py`.

The only operation in the function that can fail is the awaited external call
`tool_context.save_artifact`; the boolean `persistFails` says whether that
external call raises. Everything before it (reading the three analyst results,
assembling the report, writing it to the store under `report`, constructing
the artifact) is plain templating and store mutation, executed in program
order before the await. -/
def save_advice_report (persistFails : Bool) (state : PyDict)
    (summary ticker : String) : Outcome :=
  let data_analyst_result := dictGetD state "data_analyst_result" .none_
  let financial_analyst_result := dictGetD state "financial_analyst_result" .none_
  let news_analyst_result := dictGetD state "news_analyst_result" .none_
  let report := buildReport summary data_analyst_result
    financial_analyst_result news_analyst_result
  let state' := dictSet state "report" (.str report)
  let filename := ticker ++ "_investment_advice.md"
  let artifact : Artifact :=
    { filename := filename
      mime_type := "text/markdown"
      data := encodeUTF8 report }
  if persistFails then
    { state := state', artifacts := [], result := .error () }
  else
    { state := state', artifacts := [artifact],
      result := .ok [("success", .bool true)] }

/-- The shared-state keys `save_advice_report` reads. -/
def reportReadKeys : List String :=
  ["data_analyst_result", "financial_analyst_result", "news_analyst_result"]

/-- `get_company_info` from `src/financial_advisor/sub_agents/data_analyst.py`.
`info` is the provider response `yf.Ticker(ticker).info`, an external
dictionary; each scalar field is read with a `"NA"` default. -/
def get_company_info (info : PyDict) (ticker : String) : PyDict :=
  [("ticker", .str ticker),
   ("success", .bool true),
   ("company_name", dictGetD info "longName" (.str "NA")),
   ("industry", dictGetD info "industry" (.str "NA")),
   ("sector", dictGetD info "sector" (.str "NA"))]

/-- `get_stock_price` from `src/financial_advisor/sub_agents/data_analyst.py`.
`info` is the provider response; `historyJson` stands for the external value
`stock.history(period=period).to_json()`, passed through unchecked. The
current price is read with one-argument `info.get("currentPrice")`, whose
default is Python `None`. -/
def get_stock_price (info : PyDict) (historyJson : String)
    (ticker period : String) : PyDict :=
  [("ticker", .str ticker),
   ("success", .bool true),
   ("history", .str historyJson),
   ("current_price", dictGetD info "currentPrice" .none_)]

/-- `get_financial_metrics` from
`src/financial_advisor/sub_agents/data_analyst.py`: four scalar fields read
from the provider response, each with a `"NA"` default. -/
def get_financial_metrics (info : PyDict) (ticker : String) : PyDict :=
  [("ticker", .str ticker),
   ("success", .bool true),
   ("market_cap", dictGetD info "marketCap" (.str "NA")),
   ("pe_ratio", dictGetD info "trailingPE" (.str "NA")),
   ("dividend_yield", dictGetD info "dividendYield" (.str "NA")),
   ("beta", dictGetD info "beta" (.str "NA"))]

/-- The declarative surface of an agent object: name, description, the
output-binding key (`output_key`, `None` when the constructor argument is
omitted), and the names of its registered tools. -/
structure AgentDecl where
  name : String
  description : String
  output_key : Option String
  tool_names : List String
deriving DecidableEq, Repr

/-- The `data_analyst` agent declaration
(`src/financial_advisor/sub_agents/data_analyst.py`). -/
def data_analyst : AgentDecl :=
  { name := "DataAnalyst"
    description := "Gathers and analyzes basic stock market data using multiple focused tools"
    output_key := some "data_analyst_result"
    tool_names := ["get_company_info", "get_stock_price", "get_financial_metrics"] }

/-- The `financial_analyst` agent declaration
(`src/financial_advisor/sub_agents/financial_analyst.py`). -/
def financial_analyst : AgentDecl :=
  { name := "FinancialAnalyst"
    description := "Analyzes detailed financial statements including income, balance sheet, and cash flow"
    output_key := some "financial_analyst_result"
    tool_names := ["get_income_statement", "get_balance_sheet", "get_cash_flow"] }

/-- The `news_analyst` agent declaration
(`src/financial_advisor/sub_agents/news_analyst.py`): its `Agent(...)`
constructor call passes no `output_key` argument, so the field holds the
default `None`. -/
def news_analyst : AgentDecl :=
  { name := "NewsAnalyst"
    description := "Fetches recent company news via yfinance for up-to-date market information."
    output_key := none
    tool_names := ["get_company_news"] }

/-- The example shared store from the specification: the three analyst
results are the strings `X`, `Y`, `Z`. -/
def exampleStore : PyDict :=
  [("data_analyst_result", .str "X"),
   ("financial_analyst_result", .str "Y"),
   ("news_analyst_result", .str "Z")]

theorem dictLookup_nil (k : String) : dictLookup [] k = none := rfl

theorem dictLookup_cons (k' : String) (v' : PyVal) (rest : List (String × PyVal))
    (k : String) :
    dictLookup ((k', v') :: rest) k =
      if k' == k then some v' else dictLookup rest k := by
  simp only [dictLookup, List.find?]
  by_cases h : k' == k <;> simp [h]

theorem dictLookup_set_self (d : PyDict) (k : String) (v : PyVal) :
    dictLookup (dictSet d k v) k = some v := by
  induction d with
  | nil => simp [dictSet, dictLookup_cons, dictLookup_nil]
  | cons p rest ih =>
    rcases p with ⟨k', v'⟩
    by_cases h : k' = k
    · subst h; simp [dictSet, dictLookup_cons]
    · simp [dictSet, h, dictLookup_cons, ih]

theorem dictLookup_set_ne (d : PyDict) (k k' : String) (v : PyVal)
    (h : k' ≠ k) :
    dictLookup (dictSet d k v) k' = dictLookup d k' := by
  induction d with
  | nil =>
    simp [dictSet, dictLookup_cons, dictLookup_nil,
      beq_eq_false_iff_ne.mpr (Ne.symm h)]
  | cons p rest ih =>
    rcases p with ⟨k₀, v₀⟩
    by_cases hk : k₀ = k
    · subst hk
      have hne : (k₀ == k') = false :=
        beq_eq_false_iff_ne.mpr (fun hh => h hh.symm)
      simp [dictSet, dictLookup_cons, hne]
    · have hf : (k₀ == k) = false := beq_eq_false_iff_ne.mpr hk
      simp [dictSet, hf, dictLookup_cons, ih]

theorem dictLookup_set_none (d : PyDict) (k k' : String) (v : PyVal)
    (h : dictLookup (dictSet d k v) k' ≠ none) :
    k' = k ∨ dictLookup d k' ≠ none := by
  by_cases hk : k' = k
  · exact Or.inl hk
  · exact Or.inr (by rwa [dictLookup_set_ne d k k' v hk] at h)

/-- The store component of the outcome of `save_advice_report` is the input
store with `report` bound to the assembled report, whether or not the
external persistence call fails. -/
theorem save_state_eq (pf : Bool) (s : PyDict) (sm t : String) :
    (save_advice_report pf s sm t).state = dictSet s "report" (.str (reportText s sm)) := by
  cases pf <;> rfl

theorem save_state_report (pf : Bool) (s : PyDict) (sm t : String) :
    dictLookup (save_advice_report pf s sm t).state "report"
      = some (.str (reportText s sm)) := by
  rw [save_state_eq]
  exact dictLookup_set_self s "report" _

/-- The report text depends only on the summary and the three read keys. -/
theorem reportText_congr (s₁ s₂ : PyDict) (sm : String)
    (h : ∀ k ∈ reportReadKeys, dictLookup s₁ k = dictLookup s₂ k) :
    reportText s₁ sm = reportText s₂ sm := by
  have h1 := h "data_analyst_result" (by simp [reportReadKeys])
  have h2 := h "financial_analyst_result" (by simp [reportReadKeys])
  have h3 := h "news_analyst_result" (by simp [reportReadKeys])
  simp [reportText, dictGetD, h1, h2, h3]

/-- Claim C2: report assembly is deterministic — two calls to
`save_advice_report` with identical shared-store contents, identical summary
and identical ticker produce byte-identical report strings, and the store
value written under `report` is the same both times. -/
theorem report_assembly_deterministic (pf₁ pf₂ : Bool) (s₁ s₂ : PyDict)
    (sm₁ sm₂ t₁ t₂ : String)
    (hs : s₁ = s₂) (hm : sm₁ = sm₂) (ht : t₁ = t₂) :
    reportText s₁ sm₁ = reportText s₂ sm₂ ∧
    encodeUTF8 (reportText s₁ sm₁) = encodeUTF8 (reportText s₂ sm₂) ∧
    dictLookup (save_advice_report pf₁ s₁ sm₁ t₁).state "report"
      = dictLookup (save_advice_report pf₂ s₂ sm₂ t₂).state "report" := by
  subst hs; subst hm; subst ht
  refine ⟨rfl, rfl, ?_⟩
  rw [save_state_report, save_state_report]

/-- Witness for C2 at concrete inputs. -/
theorem report_assembly_deterministic_witness :
    reportText exampleStore "Buy" = reportText exampleStore "Buy" ∧
    encodeUTF8 (reportText exampleStore "Buy")
      = encodeUTF8 (reportText exampleStore "Buy") ∧
    dictLookup (save_advice_report false exampleStore "Buy" "AAPL").state "report"
      = dictLookup (save_advice_report true exampleStore "Buy" "AAPL").state "report" :=
  report_assembly_deterministic false true exampleStore exampleStore
    "Buy" "Buy" "AAPL" "AAPL" rfl rfl rfl

/-- Claim C4: for every non-empty ticker, the artifact written by
`save_advice_report` has filename `ticker ++ "_investment_advice.md"`,
media type `text/markdown`, and payload the UTF-8 bytes of the report string
it just assembled. -/
theorem artifact_shape (s : PyDict) (sm t : String) (ht : t ≠ "") :
    (save_advice_report false s sm t).artifacts =
      [{ filename := t ++ "_investment_advice.md"
         mime_type := "text/markdown"
         data := encodeUTF8 (reportText s sm) }] := rfl

/-- Witness for C4 at concrete inputs. -/
theorem artifact_shape_witness :
    ("AAPL" : String) ≠ "" ∧
    (save_advice_report false exampleStore "Buy" "AAPL").artifacts =
      [{ filename := "AAPL" ++ "_investment_advice.md"
         mime_type := "text/markdown"
         data := encodeUTF8 (reportText exampleStore "Buy") }] :=
  ⟨by decide, artifact_shape exampleStore "Buy" "AAPL" (by decide)⟩

/-- Claim C5: `save_advice_report` has no error path of its own — whenever the
external persistence call succeeds it returns the mapping
the mapping binding `success` to `True`, and the only failure is the propagated external one. -/
theorem save_no_error_path (s : PyDict) (sm t : String) :
    (save_advice_report false s sm t).result
      = Except.ok [("success", PyVal.bool true)] ∧
    (save_advice_report true s sm t).result = Except.error () :=
  ⟨rfl, rfl⟩

/-- Claim C6: `save_advice_report` writes only the key `report` into the
shared store — every other key maps to the same value as before the call and
no other key is added. -/
theorem save_frame_effect (pf : Bool) (s : PyDict) (sm t : String) :
    (∀ k, k ≠ "report" →
      dictLookup (save_advice_report pf s sm t).state k = dictLookup s k) ∧
    (∀ k, dictLookup (save_advice_report pf s sm t).state k ≠ none →
      k = "report" ∨ dictLookup s k ≠ none) := by
  constructor
  · intro k hk
    rw [save_state_eq]
    exact dictLookup_set_ne s "report" k _ hk
  · intro k hk
    rw [save_state_eq] at hk
    exact dictLookup_set_none s "report" k _ hk

/-- Witness for C6 at concrete inputs. -/
theorem save_frame_effect_witness :
    dictLookup (save_advice_report false exampleStore "Buy" "AAPL").state
      "data_analyst_result" = dictLookup exampleStore "data_analyst_result" ∧
    ("data_analyst_result" = "report" ∨
      dictLookup exampleStore "data_analyst_result" ≠ none) :=
  ⟨(save_frame_effect false exampleStore "Buy" "AAPL").1
      "data_analyst_result" (by decide),
   (save_frame_effect false exampleStore "Buy" "AAPL").2
      "data_analyst_result" (by decide)⟩

/-- Claim C10: the shared-store write of `report` happens before the awaited
external persistence call — when persistence fails, the store nevertheless
already holds the assembled report under `report`. -/
theorem store_written_before_persist (s : PyDict) (sm t : String) :
    (save_advice_report true s sm t).result = Except.error () ∧
    dictLookup (save_advice_report true s sm t).state "report"
      = some (.str (reportText s sm)) :=
  ⟨rfl, save_state_report true s sm t⟩

/-- Claim C9 (the divergence): the data analyst binds its output to
`data_analyst_result` and the financial analyst to `financial_analyst_result`,
both read by the report tool; but the declaration of the news analyst passes no
`output_key`, so it does not bind its output to `news_analyst_result`, which
the report tool also reads. -/
theorem output_key_bindings :
    data_analyst.output_key = some "data_analyst_result" ∧
    financial_analyst.output_key = some "financial_analyst_result" ∧
    "news_analyst_result" ∈ reportReadKeys ∧
    news_analyst.output_key = none ∧
    news_analyst.output_key ≠ some "news_analyst_result" := by
  refine ⟨rfl, rfl, by simp [reportReadKeys], rfl, by simp [news_analyst]⟩

/-- Claim C8 (counterexample): with a provider response lacking
`currentPrice`, `get_stock_price` returns Python `None` — not the string
`"NA"` — as the value of its `current_price` field. -/
theorem current_price_not_na :
    dictLookup (get_stock_price [] "hist-json" "TSLA" "3mo") "current_price"
      = some PyVal.none_ ∧
    dictLookup (get_stock_price [] "hist-json" "TSLA" "3mo") "current_price"
      ≠ some (PyVal.str "NA") := by decide

/-- Claim C8 as amended: when the provider response lacks a current price,
`get_stock_price` does not raise, its `success` flag is `True`, and its
`current_price` field is Python `None` (the one-argument `get` default), not
the `"NA"` sentinel used by the other helpers. -/
theorem current_price_defaults_to_none (info : PyDict) (hist t p : String)
    (h : dictLookup info "currentPrice" = none) :
    dictLookup (get_stock_price info hist t p) "current_price"
      = some PyVal.none_ ∧
    dictLookup (get_stock_price info hist t p) "success"
      = some (PyVal.bool true) := by
  constructor
  · simp [get_stock_price, dictLookup_cons, dictGetD, h]
  · simp [get_stock_price, dictLookup_cons]

/-- Witness for the amended C8 at concrete inputs. -/
theorem current_price_defaults_to_none_witness :
    dictLookup (get_stock_price [] "hist-json" "AAPL" "1mo") "current_price"
      = some PyVal.none_ ∧
    dictLookup (get_stock_price [] "hist-json" "AAPL" "1mo") "success"
      = some (PyVal.bool true) :=
  current_price_defaults_to_none [] "hist-json" "AAPL" "1mo" rfl

/-- Claim C7: on any provider response, `get_company_info` and
`get_financial_metrics` do not raise, their `success` flag is `True`, and
each of the seven scalar fields independently falls back to the literal
string `"NA"` when its provider key is missing. -/
theorem na_substitution (info : PyDict) (ticker : String) :
    dictLookup (get_company_info info ticker) "success" = some (.bool true) ∧
    dictLookup (get_financial_metrics info ticker) "success" = some (.bool true) ∧
    (dictLookup info "longName" = none →
      dictLookup (get_company_info info ticker) "company_name" = some (.str "NA")) ∧
    (dictLookup info "industry" = none →
      dictLookup (get_company_info info ticker) "industry" = some (.str "NA")) ∧
    (dictLookup info "sector" = none →
      dictLookup (get_company_info info ticker) "sector" = some (.str "NA")) ∧
    (dictLookup info "marketCap" = none →
      dictLookup (get_financial_metrics info ticker) "market_cap" = some (.str "NA")) ∧
    (dictLookup info "trailingPE" = none →
      dictLookup (get_financial_metrics info ticker) "pe_ratio" = some (.str "NA")) ∧
    (dictLookup info "dividendYield" = none →
      dictLookup (get_financial_metrics info ticker) "dividend_yield" = some (.str "NA")) ∧
    (dictLookup info "beta" = none →
      dictLookup (get_financial_metrics info ticker) "beta" = some (.str "NA")) := by
  refine ⟨by simp [get_company_info, dictLookup_cons],
    by simp [get_financial_metrics, dictLookup_cons],
    ?_, ?_, ?_, ?_, ?_, ?_, ?_⟩ <;>
    (intro h
     simp [get_company_info, get_financial_metrics, dictLookup_cons,
       dictGetD, h])

/-- Witness for C7 at a provider response missing every optional field. -/
theorem na_substitution_witness :
    dictLookup (get_company_info [] "AAPL") "success" = some (.bool true) ∧
    dictLookup (get_financial_metrics [] "AAPL") "success" = some (.bool true) ∧
    dictLookup (get_company_info [] "AAPL") "company_name" = some (.str "NA") ∧
    dictLookup (get_company_info [] "AAPL") "industry" = some (.str "NA") ∧
    dictLookup (get_company_info [] "AAPL") "sector" = some (.str "NA") ∧
    dictLookup (get_financial_metrics [] "AAPL") "market_cap" = some (.str "NA") ∧
    dictLookup (get_financial_metrics [] "AAPL") "pe_ratio" = some (.str "NA") ∧
    dictLookup (get_financial_metrics [] "AAPL") "dividend_yield" = some (.str "NA") ∧
    dictLookup (get_financial_metrics [] "AAPL") "beta" = some (.str "NA") := by
  have h := na_substitution [] "AAPL"
  exact ⟨h.1, h.2.1, h.2.2.1 rfl, h.2.2.2.1 rfl, h.2.2.2.2.1 rfl,
    h.2.2.2.2.2.1 rfl, h.2.2.2.2.2.2.1 rfl, h.2.2.2.2.2.2.2.1 rfl,
    h.2.2.2.2.2.2.2.2 rfl⟩

/-- Claim C3: when an analyst-result key is absent from the shared store, the
corresponding report section renders the fixed null placeholder `None`
inline at the position of that section. -/
theorem missing_keys_render_none (store : PyDict) (summary : String) :
    (dictLookup store "data_analyst_result" = none →
      "## Data Analyst Report:\n    None\n".data <:+:
        (reportText store summary).data) ∧
    (dictLookup store "financial_analyst_result" = none →
      "## Financial Analyst Report:\n    None\n".data <:+:
        (reportText store summary).data) ∧
    (dictLookup store "news_analyst_result" = none →
      "## News Analyst Report:\n    None\n".data <:+:
        (reportText store summary).data) := by
  refine ⟨?_, ?_, ?_⟩
  · intro h
    have hmid : "## Data Analyst Report:\n    None\n".data <:+:
        (seg2 ++ "None" ++ seg3).data := by decide
    refine hmid.trans ⟨seg1.data ++ summary.data,
      (pyStr (dictGetD store "financial_analyst_result" .none_)).data
        ++ seg4.data
        ++ (pyStr (dictGetD store "news_analyst_result" .none_)).data
        ++ seg5.data, ?_⟩
    simp [reportText, buildReport, String.data_append, dictGetD, h, pyStr,
      List.append_assoc]
  · intro h
    have hmid : "## Financial Analyst Report:\n    None\n".data <:+:
        (seg3 ++ "None" ++ seg4).data := by decide
    refine hmid.trans ⟨seg1.data ++ summary.data ++ seg2.data
        ++ (pyStr (dictGetD store "data_analyst_result" .none_)).data,
      (pyStr (dictGetD store "news_analyst_result" .none_)).data
        ++ seg5.data, ?_⟩
    simp [reportText, buildReport, String.data_append, dictGetD, h, pyStr,
      List.append_assoc]
  · intro h
    have hmid : "## News Analyst Report:\n    None\n".data <:+:
        (seg4 ++ "None" ++ seg5).data := by decide
    refine hmid.trans ⟨seg1.data ++ summary.data ++ seg2.data
        ++ (pyStr (dictGetD store "data_analyst_result" .none_)).data
        ++ seg3.data
        ++ (pyStr (dictGetD store "financial_analyst_result" .none_)).data,
      [], ?_⟩
    simp [reportText, buildReport, String.data_append, dictGetD, h, pyStr,
      List.append_assoc]

/-- Witness for C3: the empty store is missing all three keys. -/
theorem missing_keys_render_none_witness :
    "## Data Analyst Report:\n    None\n".data <:+:
      (reportText [] "Buy").data ∧
    "## Financial Analyst Report:\n    None\n".data <:+:
      (reportText [] "Buy").data ∧
    "## News Analyst Report:\n    None\n".data <:+:
      (reportText [] "Buy").data :=
  ⟨(missing_keys_render_none [] "Buy").1 rfl,
   (missing_keys_render_none [] "Buy").2.1 rfl,
   (missing_keys_render_none [] "Buy").2.2 rfl⟩

/-- Claim C1: the report built by `save_advice_report` contains the summary
and the three analyst-result strings in the fixed section order (summary,
data, financial, news); on the example store of the specification with summary
`Buy` it contains the two quoted substrings. -/
theorem report_contains_sections (store : PyDict) (summary ticker : String)
    (X Y Z : String)
    (hd : dictLookup store "data_analyst_result" = some (.str X))
    (hf : dictLookup store "financial_analyst_result" = some (.str Y))
    (hn : dictLookup store "news_analyst_result" = some (.str Z)) :
    (dictLookup (save_advice_report false store summary ticker).state "report"
        = some (.str (reportText store summary)) ∧
      ∃ a b c d e : List Char,
        (reportText store summary).data =
          a ++ summary.data ++ b ++ X.data ++ c ++ Y.data ++ d ++ Z.data ++ e) ∧
    "# Excetutive Summary and Advice:\n    Buy".data <:+:
      (reportText exampleStore "Buy").data ∧
    "## Data Analyst Report:\n    X".data <:+:
      (reportText exampleStore "Buy").data := by
  refine ⟨⟨save_state_report false store summary ticker,
    seg1.data, seg2.data, seg3.data, seg4.data, seg5.data, ?_⟩,
    by decide, by decide⟩
  simp [reportText, buildReport, String.data_append, dictGetD, hd, hf, hn,
    pyStr, List.append_assoc]

/-- Witness for C1 on the example store of the specification. -/
theorem report_contains_sections_witness :
    (dictLookup (save_advice_report false exampleStore "Buy" "AAPL").state
        "report" = some (.str (reportText exampleStore "Buy")) ∧
      ∃ a b c d e : List Char,
        (reportText exampleStore "Buy").data =
          a ++ "Buy".data ++ b ++ "X".data ++ c ++ "Y".data ++ d
            ++ "Z".data ++ e) ∧
    "# Excetutive Summary and Advice:\n    Buy".data <:+:
      (reportText exampleStore "Buy").data ∧
    "## Data Analyst Report:\n    X".data <:+:
      (reportText exampleStore "Buy").data :=
  report_contains_sections exampleStore "Buy" "AAPL" "X" "Y" "Z" rfl rfl rfl

end FinancialAdvisor
